import Mathlib

/-!
Shallow embedding of the bs4_parser_pep scraper (src/main.py, src/utils.py,
src/constants.py, src/exceptions.py) and proofs about the claims of its
specification.

The HTML side (BeautifulSoup) is modelled by a tree of elements; a parsed
page is carried alongside the raw response text on the fixture responses,
since an HTML parser itself is outside the embedding.  All Python exceptions
that the modelled code can raise are collected in one error type and fallible
code returns Except values.
-/

/-- A node of a parsed HTML document: tag name, attribute list, the text the
node directly owns, and child elements in document order.  Models a
BeautifulSoup Tag at the granularity the scraper uses. -/
inductive Node : Type where
  | elem (name : String) (attrs : List (String × String)) (ownText : String)
      (children : List Node)

def Node.name : Node → String
  | .elem nm _ _ _ => nm

def Node.attrs : Node → List (String × String)
  | .elem _ a _ _ => a

def Node.children : Node → List Node
  | .elem _ _ _ cs => cs

/-- Concatenated text of a forest of nodes, document order. -/
def textForest : List Node → String
  | [] => ""
  | Node.elem _ _ s cs :: rest => s ++ textForest cs ++ textForest rest

/-- The text property of a BeautifulSoup Tag: every string inside the
subtree, concatenated in document order. -/
def Node.text : Node → String
  | Node.elem _ _ s cs => s ++ textForest cs

/-- An attribute constraint of a find query: either an exact value, or the
one regular-expression value used by the repository, re.compile of
dot-plus followed by a literal suffix anchored at the end. -/
inductive AttrSel : Type where
  | exact (v : String)
  | dotPlusSuffix (suf : String)

/-- Boolean prefix test on character lists. -/
def charsStarts : List Char → List Char → Bool
  | [], _ => true
  | _ :: _, [] => false
  | a :: as, b :: bs => a == b && charsStarts as bs

/-- Python substring membership needle in hay on strings, as character
lists. -/
def charsSub (needle : List Char) : List Char → Bool
  | [] => charsStarts needle []
  | c :: cs => charsStarts needle (c :: cs) || charsSub needle cs

/-- Python membership a in b for strings. -/
def pyStrIn (needle hay : String) : Bool :=
  charsSub needle.data hay.data

def attrLookup (n : Node) (key : String) : Option String :=
  (n.attrs.find? (fun p => p.1 == key)).map (fun p => p.2)

/-- Does a concrete attribute value satisfy an attribute constraint?  The
dot-plus-suffix pattern requires at least one character before the suffix
and the suffix at the end (newlines in the leading part are not modelled;
no fixture uses them). -/
def selMatches : AttrSel → String → Bool
  | .exact s, v => v == s
  | .dotPlusSuffix suf, v =>
    decide (suf.data.length < v.data.length) &&
      charsStarts suf.data.reverse v.data.reverse

/-- Does a node match a find query: name equal, and every constrained
attribute present with a satisfying value? -/
def nodeMatches (tag : String) (attrs : List (String × AttrSel)) (n : Node) : Bool :=
  n.name == tag && attrs.all (fun p =>
    match attrLookup n p.1 with
    | some v => selMatches p.2 v
    | none => false)

/-- First match of a find query over a forest, depth first, document order:
the head node itself, then its subtree, then its right siblings. -/
def findInForest (tag : String) (attrs : List (String × AttrSel)) :
    List Node → Option Node
  | [] => none
  | Node.elem nm a s cs :: rest =>
    if nodeMatches tag attrs (Node.elem nm a s cs) then some (Node.elem nm a s cs)
    else
      match findInForest tag attrs cs with
      | some m => some m
      | none => findInForest tag attrs rest

/-- BeautifulSoup Tag.find: first matching descendant of the element (the
element itself is not a candidate). -/
def bsFind (soup : Node) (tag : String) (attrs : List (String × AttrSel)) :
    Option Node :=
  findInForest tag attrs soup.children

/-- All matches of a find query over a forest, document order. -/
def findAllForest (tag : String) (attrs : List (String × AttrSel)) :
    List Node → List Node
  | [] => []
  | Node.elem nm a s cs :: rest =>
    (if nodeMatches tag attrs (Node.elem nm a s cs) then [Node.elem nm a s cs] else [])
      ++ findAllForest tag attrs cs ++ findAllForest tag attrs rest

/-- BeautifulSoup Tag.find_all over the descendants of an element. -/
def bsFindAll (soup : Node) (tag : String) (attrs : List (String × AttrSel)) :
    List Node :=
  findAllForest tag attrs soup.children

/-- All nodes of a forest in document order (each node before its subtree). -/
def preorderForest : List Node → List Node
  | [] => []
  | Node.elem nm a s cs :: rest =>
    Node.elem nm a s cs :: (preorderForest cs ++ preorderForest rest)

/-- The descendants of an element in document order: exactly the candidate
set and order of Tag.find / Tag.find_all. -/
def descendants (n : Node) : List Node :=
  preorderForest n.children

/-- Every node of a forest paired with the list of its following siblings,
document order; the sibling list is what find_next_sibling searches. -/
def sibForest : List Node → List (Node × List Node)
  | [] => []
  | Node.elem nm a s cs :: rest =>
    (Node.elem nm a s cs, rest) :: (sibForest cs ++ sibForest rest)

def descendantsWithFollowing (n : Node) : List (Node × List Node) :=
  sibForest n.children

/-- Structural induction principle for forests of nodes, recursing both into
children and into right siblings; used to reason about the forest
traversals above. -/
theorem forestInd (P : List Node → Prop) (h0 : P [])
    (h1 : ∀ (nm : String) (a : List (String × String)) (s : String)
      (cs rest : List Node), P cs → P rest → P (Node.elem nm a s cs :: rest)) :
    ∀ ns : List Node, P ns
  | [] => h0
  | Node.elem nm a s cs :: rest =>
    h1 nm a s cs rest (forestInd P h0 h1 cs) (forestInd P h0 h1 rest)

/-- The Python exceptions the modelled code can raise.  findTag models
exceptions.ParserFindTagException and versionsNotFound models
exceptions.VersionsNotFoundException; the others are builtin exceptions
raised by the interpreter or re-raised by utils.get_response.
exceptions.ParserMainError wraps the CLI entry point, which is outside the
modelled core. -/
inductive PyError : Type where
  | requestsConnectionError (url : String)
  | connectionError (msg : String)
  | typeError (msg : String)
  | keyError (key : String)
  | attributeError (msg : String)
  | findTag (tag : String) (attrs : List (String × AttrSel))
  | versionsNotFound (msg : String)

/-- A fetched page: raw text, its BeautifulSoup parse (carried by the
fixture, since an HTML parser is outside the embedding), and the declared
encoding. -/
structure Response : Type where
  text : String
  soup : Node
  encoding : String

/-- A requests session: maps a url either to a response or to a
requests-level ConnectionError.  session.get never returns None. -/
abbrev Session : Type := String → Except PyError Response

/-- utils.get_response: session.get the url, set response.encoding and
return the response; a requests ConnectionError is re-raised as the builtin
ConnectionError naming the url.  The encoding parameter takes its default
value utf-8 at every call site and is inlined here. -/
def get_response (session : Session) (url : String) : Except PyError Response :=
  match session url with
  | .ok response => .ok ⟨response.text, response.soup, "utf-8"⟩
  | .error _ =>
    .error (.connectionError ("Ошибка соединения при запросе " ++ url))

/-- utils.cook_soup as defined: cook_soup(session, url, features) fetches
the url through get_response and parses response.text; the parse is the
soup carried on the response.  No call site of the repository supplies the
url argument, so the extractors never reach this body. -/
def cook_soup (session : Session) (url : String) : Except PyError Node :=
  match get_response session url with
  | .ok response => .ok response.soup
  | .error e => .error e

def cookSoupArityMsg : String :=
  "cook_soup() missing 1 required positional argument: url"

/-- The call cook_soup(response) as written in whats_new, latest_versions,
download and pep: cook_soup is defined with two required positional
parameters (session, url), so calling it with the single response object
raises TypeError before the body runs. -/
def cook_soup_one_arg (_response : Response) : Except PyError Node :=
  .error (.typeError cookSoupArityMsg)

/-- utils.find_tag: soup.find(tag, attrs or empty dict), raising
ParserFindTagException naming the searched tag and attrs when nothing
matches.  The logging.error side channel is not modelled. -/
def find_tag (soup : Node) (tag : String) (attrs : List (String × AttrSel)) :
    Except PyError Node :=
  match bsFind soup tag attrs with
  | some searched_tag => .ok searched_tag
  | none => .error (.findTag tag attrs)

/-- constants.MAIN_DOC_URL. -/
def MAIN_DOC_URL : String := "https://docs.python.org/3/"

/-- constants.PEP_LIST_URL. -/
def PEP_LIST_URL : String := "https://peps.python.org/"

/-- constants.UNKNOWN_VALUE. -/
def UNKNOWN_VALUE : String := "Unknown"

/-- constants.EXPECTED_STATUS, an insertion-ordered mapping from the
one-letter status code to the tuple of expected status names. -/
def EXPECTED_STATUS : List (String × List String) :=
  [("A", ["Active", "Accepted"]),
   ("D", ["Deferred"]),
   ("F", ["Final"]),
   ("P", ["Provisional"]),
   ("R", ["Rejected"]),
   ("S", ["Superseded"]),
   ("W", ["Withdrawn"]),
   ("", ["Draft", "Active"])]

/-- The value bound to status_value in pep: either a tuple of status names
taken from EXPECTED_STATUS, or the plain string UNKNOWN_VALUE used as the
dictionary-get fallback. -/
inductive StatusValue : Type where
  | strs (l : List String)
  | str (s : String)

/-- Python membership data_page in data_table: elementwise equality when
data_table is a tuple of strings, substring containment when data_table is
itself a string (the case of the Unknown fallback). -/
def pyInStatus (s : String) : StatusValue → Bool
  | .strs l => l.contains s
  | .str t => pyStrIn s t

/-- Python str() of the status_value, as interpolated into the warning
message: a tuple renders with quoted elements (and a trailing comma when of
arity one), a plain string renders as itself. -/
def pyQuote (s : String) : String := "\x27" ++ s ++ "\x27"

def statusValueRepr : StatusValue → String
  | .str s => s
  | .strs [x] => "(" ++ pyQuote x ++ ",)"
  | .strs l => "(" ++ String.intercalate ", " (l.map pyQuote) ++ ")"

/-- The message of the logging.warning call in utils.check_status_matches,
with the three interpolations substituted. -/
def warningMessage (data_page : String) (data_table : StatusValue)
    (url : String) : String :=
  "Несовпадающие статусы:\nURL: " ++ url ++
    ("\nСтатус в карточке: " ++ data_page ++
      "\nОжидаемые статусы: " ++ statusValueRepr data_table ++ "\n")

/-- The value returned by utils.check_status_matches: the observed status
string, or the Python literal False. -/
inductive CheckResult : Type where
  | status (s : String)
  | retFalse

/-- utils.check_status_matches: return data_page when it is a member of
data_table, otherwise log one warning naming the url and return False.  The
second component collects the logged warnings. -/
def check_status_matches (data_page : String) (data_table : StatusValue)
    (url : String) : CheckResult × List String :=
  if pyInStatus data_page data_table then (.status data_page, [])
  else (.retFalse, [warningMessage data_page data_table url])

/-- The expression status_symbol of pep: the second character of the
abbreviation text when it has more than one character, else the empty
string. -/
def status_symbol_of (types_and_status_list : String) : String :=
  if 1 < types_and_status_list.length then
    String.singleton (types_and_status_list.data.getD 1 ' ')
  else ""

/-- The expression EXPECTED_STATUS.get(status_symbol, UNKNOWN_VALUE) of
pep: dictionary lookup with the plain string UNKNOWN_VALUE as fallback. -/
def expectedStatusGet (status_symbol : String) : StatusValue :=
  match EXPECTED_STATUS.find? (fun p => p.1 == status_symbol) with
  | some p => .strs p.2
  | none => .str UNKNOWN_VALUE

/-- Composition of the two per-row expressions of pep: from the
abbreviation text to the status_value passed to check_status_matches. -/
def status_value_of (abbrText : String) : StatusValue :=
  expectedStatusGet (status_symbol_of abbrText)

/-- Python Counter update c[k] += 1 on an insertion-ordered counter: an
existing key keeps its position, a fresh key is appended with count 1. -/
def counterAdd (c : List (String × Nat)) (k : String) : List (String × Nat) :=
  if c.any (fun p => p.1 == k) then
    c.map (fun p => if p.1 == k then (p.1, p.2 + 1) else p)
  else c ++ [(k, 1)]

/-- The reconcile-and-count step of the pep loop: status_confirmed is the
check_status_matches value, and the counter is bumped only when
status_confirmed is truthy, the empty string being falsy in Python.
Returns the updated counter and the warnings logged by the check. -/
def tally_step (status_on_link : String) (status_value : StatusValue)
    (url : String) (counter : List (String × Nat)) :
    List (String × Nat) × List String :=
  match check_status_matches status_on_link status_value url with
  | (.status s, ws) => (if s == "" then counter else counterAdd counter s, ws)
  | (.retFalse, ws) => (counter, ws)

/-- One cell of a result row: Python strings and ints. -/
inductive Cell : Type where
  | str (s : String)
  | nat (n : Nat)

abbrev Row : Type := List Cell

/-- Modelled urllib.parse.urljoin, restricted to the reference shapes the
call sites produce: an absolute reference replaces the base, a relative
reference is appended to a base ending in a slash. -/
def urljoin (base ref : String) : String :=
  if charsStarts "http".data ref.data then ref else base ++ ref

/-- Case-insensitive literal prefix: drop pat from the front of l comparing
characters lowercased, or fail. -/
def dropCI : List Char → List Char → Option (List Char)
  | [], l => some l
  | _ :: _, [] => none
  | p :: ps, c :: cs => if p.toLower == c.toLower then dropCI ps cs else none

/-- Modelled re.search of the anchored pattern whitespace-star Status
whitespace-star colon whitespace-star end, case-insensitive, as tested
against dt.text in pep: the text is exactly a Status label up to
whitespace and case. -/
def isStatusDt (text : String) : Bool :=
  match dropCI "Status".data (text.data.dropWhile Char.isWhitespace) with
  | none => false
  | some rest =>
    match rest.dropWhile Char.isWhitespace with
    | ':' :: rest2 => (rest2.dropWhile Char.isWhitespace).isEmpty
    | _ => false

/-- Literal prefix: drop pat from the front of l, or fail. -/
def dropLit : List Char → List Char → Option (List Char)
  | [], l => some l
  | _ :: _, [] => none
  | p :: ps, c :: cs => if p == c then dropLit ps cs else none

/-- The characters of line before its last closing parenthesis, or none
when line has no closing parenthesis: the greedy dot-star followed by a
literal closing parenthesis. -/
def beforeLastParen (line : List Char) : Option (List Char) :=
  match line.reverse.dropWhile (fun c => c ≠ ')') with
  | [] => none
  | _ :: before => some before.reverse

/-- Try the latest_versions version pattern at one position: literal
Python-space, one digit, a dot, one or more digits, space, opening
parenthesis, then the greedy dot-star up to the last closing parenthesis on
the same line; returns the version and status captures. -/
def matchVersionAt (l : List Char) : Option (String × String) :=
  match dropLit "Python ".data l with
  | none => none
  | some r1 =>
    match r1 with
    | d1 :: '.' :: r2 =>
      if d1.isDigit then
        let ds := r2.takeWhile Char.isDigit
        if ds.isEmpty then none
        else
          match dropLit " (".data (r2.drop ds.length) with
          | none => none
          | some r3 =>
            match beforeLastParen (r3.takeWhile (fun c => c ≠ '\n')) with
            | none => none
            | some st => some (String.mk (d1 :: '.' :: ds), String.mk st)
      else none
    | _ => none

/-- Leftmost match: try the pattern at every position of the text. -/
def matchVersionSearch : List Char → Option (String × String)
  | [] => none
  | c :: cs =>
    match matchVersionAt (c :: cs) with
    | some r => some r
    | none => matchVersionSearch cs

/-- Modelled re.search of the fixed latest_versions pattern Python
space-digit-dot-digits space parenthesised-status against an anchor
text. -/
def matchVersionPattern (text : String) : Option (String × String) :=
  matchVersionSearch text.data

/-- The header row built first in whats_new (and reused verbatim by
latest_versions in the source). -/
def whatsNewHeader : Row :=
  [.str "Ссылка на статью", .str "Заголовок", .str "Редактор, автор"]

/-- The per-entry loop of whats_new over the toctree list items: read the
first anchor and its href, resolve, fetch the sub-page, call
cook_soup(response), and read h1 and dl into one row.  The warn-and-skip
branch of the source for a None response is unreachable, because
get_response raises instead of returning None. -/
def whats_new_loop (session : Session) (whats_new_url : String) :
    List Node → Except PyError (List Row)
  | [] => .ok []
  | sec :: rest =>
    match bsFind sec "a" [] with
    | none => .error (.typeError "NoneType object is not subscriptable")
    | some version_a_tag =>
      match attrLookup version_a_tag "href" with
      | none => .error (.keyError "href")
      | some href =>
        let version_link := urljoin whats_new_url href
        match get_response session version_link with
        | .error e => .error e
        | .ok response =>
          match cook_soup_one_arg response with
          | .error e => .error e
          | .ok soup =>
            match find_tag soup "h1" [] with
            | .error e => .error e
            | .ok h1 =>
              match find_tag soup "dl" [] with
              | .error e => .error e
              | .ok dl =>
                let dl_text := (Node.text dl).replace "\n" " "
                match whats_new_loop session whats_new_url rest with
                | .error e => .error e
                | .ok rows =>
                  .ok ([Cell.str version_link, Cell.str (Node.text h1),
                        Cell.str dl_text] :: rows)

/-- main.whats_new: fetch the whatsnew index, cook_soup(response) — the
one-argument call — then walk the toctree entries collecting one row per
sub-page after the header row.  The response-is-None early return of the
source is unreachable because get_response never returns None. -/
def whats_new (session : Session) : Except PyError (List Row) :=
  let whats_new_url := urljoin MAIN_DOC_URL "whatsnew/"
  match get_response session whats_new_url with
  | .error e => .error e
  | .ok response =>
    match cook_soup_one_arg response with
    | .error e => .error e
    | .ok soup =>
      match find_tag soup "section" [("id", .exact "what-s-new-in-python")] with
      | .error e => .error e
      | .ok main_div =>
        match find_tag main_div "div" [("class", .exact "toctree-wrapper")] with
        | .error e => .error e
        | .ok div_with_ul =>
          let sections_by_python :=
            bsFindAll div_with_ul "li" [("class", .exact "toctree-l1")]
          match whats_new_loop session whats_new_url sections_by_python with
          | .error e => .error e
          | .ok rows => .ok (whatsNewHeader :: rows)

def versionsNotFoundMsg : String :=
  "Не удалось найти список версий Python на странице. Возможно, структура сайта изменилась."

/-- The anchor loop of latest_versions: keep a row for every anchor whose
text matches the version pattern, with the captured version and status;
anchors without a match contribute nothing. -/
def latest_versions_loop : List Node → Except PyError (List Row)
  | [] => .ok []
  | a_tag :: rest =>
    match attrLookup a_tag "href" with
    | none => .error (.keyError "href")
    | some link =>
      match latest_versions_loop rest with
      | .error e => .error e
      | .ok rows =>
        match matchVersionPattern (Node.text a_tag) with
        | some vs => .ok ([Cell.str link, Cell.str vs.1, Cell.str vs.2] :: rows)
        | none => .ok rows

/-- main.latest_versions: fetch the documentation root, cook_soup(response)
— the one-argument call — then find the first unordered list whose text
contains the All versions marker, raising VersionsNotFoundException when
none does, and keep one row per version-shaped anchor after the header. -/
def latest_versions (session : Session) : Except PyError (List Row) :=
  match get_response session MAIN_DOC_URL with
  | .error e => .error e
  | .ok response =>
    match cook_soup_one_arg response with
    | .error e => .error e
    | .ok soup =>
      match (bsFindAll soup "ul" []).find?
          (fun ul => pyStrIn "All versions" (Node.text ul)) with
      | none => .error (.versionsNotFound versionsNotFoundMsg)
      | some ul =>
        match latest_versions_loop (bsFindAll ul "a" []) with
        | .error e => .error e
        | .ok rows => .ok (whatsNewHeader :: rows)

/-- main.download: fetch the downloads page, cook_soup(response) — the
one-argument call — locate the pdf-a4 archive anchor, fetch the archive
with a raw session.get, and write it; the write is modelled by returning
the archive path and the fetched bytes. -/
def download (session : Session) : Except PyError (String × String) :=
  let downloads_url := urljoin MAIN_DOC_URL "download.html"
  match get_response session downloads_url with
  | .error e => .error e
  | .ok response =>
    match cook_soup_one_arg response with
    | .error e => .error e
    | .ok soup =>
      match find_tag soup "div" [("role", .exact "main")] with
      | .error e => .error e
      | .ok main_tag =>
        match find_tag main_tag "table" [("class", .exact "docutils")] with
        | .error e => .error e
        | .ok table_tag =>
          match find_tag table_tag "a" [("href", .dotPlusSuffix "pdf-a4.zip")] with
          | .error e => .error e
          | .ok pdf_a4_tag =>
            match attrLookup pdf_a4_tag "href" with
            | none => .error (.keyError "href")
            | some pdf_a4_link =>
              let archive_url := urljoin downloads_url pdf_a4_link
              let filename := (archive_url.splitOn "/").getLastD ""
              match session archive_url with
              | .error e => .error e
              | .ok response2 =>
                .ok ("downloads/" ++ filename, response2.text)

/-- The inner dt loop of pep over the card page: for each dt whose text is
the Status label, read the text of its next dd sibling and run the
reconcile-and-count step; a dt with no following dd sibling makes the
find_next_sibling result None and reading text on it raises
AttributeError. -/
def pep_dt_loop (status_value : StatusValue) (pep_item_url : String) :
    List (Node × List Node) → List (String × Nat) →
      Except PyError (List (String × Nat) × List String)
  | [], counter => .ok (counter, [])
  | (dt, following) :: rest, counter =>
    if isStatusDt (Node.text dt) then
      match following.find? (fun s => Node.name s == "dd") with
      | none => .error (.attributeError "NoneType object has no attribute text")
      | some dd =>
        match tally_step (Node.text dd) status_value pep_item_url counter with
        | (counter2, ws) =>
          match pep_dt_loop status_value pep_item_url rest counter2 with
          | .error e => .error e
          | .ok (counterF, wsF) => .ok (counterF, ws ++ wsF)
    else pep_dt_loop status_value pep_item_url rest counter

/-- The table-row loop of pep: skip rows without a td cell (bs4 would also
treat a childless td as falsy and skip such a row; no fixture has one), read
the row
anchor href, the abbreviation of the first td, derive the status code and
expected value, fetch the card with get_response — whose failure raises
and therefore aborts the whole loop, the response-is-None return being
unreachable — call cook_soup(response), and scan the card dt elements. -/
def pep_row_loop (session : Session) :
    List Node → List (String × Nat) →
      Except PyError (List (String × Nat) × List String)
  | [], counter => .ok (counter, [])
  | row :: rest, counter =>
    match bsFind row "td" [] with
    | none => pep_row_loop session rest counter
    | some _ =>
      match find_tag row "a" [] with
      | .error e => .error e
      | .ok version_pep_tag =>
        match attrLookup version_pep_tag "href" with
        | none => .error (.keyError "href")
        | some href =>
          let pep_item_url := urljoin PEP_LIST_URL href
          match find_tag row "td" [] with
          | .error e => .error e
          | .ok abbr_td =>
            match find_tag abbr_td "abbr" [] with
            | .error e => .error e
            | .ok abbr =>
              let status_value :=
                expectedStatusGet (status_symbol_of (Node.text abbr))
              match get_response session pep_item_url with
              | .error e => .error e
              | .ok response =>
                match cook_soup_one_arg response with
                | .error e => .error e
                | .ok soup =>
                  let dts := (descendantsWithFollowing soup).filter
                    (fun p => nodeMatches "dt" [] p.1)
                  match pep_dt_loop status_value pep_item_url dts counter with
                  | .error e => .error e
                  | .ok (counter2, ws) =>
                    match pep_row_loop session rest counter2 with
                    | .error e => .error e
                    | .ok (counterF, wsF) => .ok (counterF, ws ++ wsF)

def pepHeader : Row := [.str "Статус", .str "Количество"]

/-- main.pep: fetch the PEP index, cook_soup(response) — the one-argument
call — find the category-index section, scan its table rows tallying
confirmed statuses, then extend the header row with one row per counted
status in insertion order and a final Total row summing the counts.  The
second component carries the warnings logged along the way. -/
def pep (session : Session) : Except PyError (List Row × List String) :=
  match get_response session PEP_LIST_URL with
  | .error e => .error e
  | .ok response =>
    match cook_soup_one_arg response with
    | .error e => .error e
    | .ok soup =>
      match find_tag soup "section" [("id", .exact "index-by-category")] with
      | .error e => .error e
      | .ok section_id =>
        match pep_row_loop session (bsFindAll section_id "tr" []) [] with
        | .error e => .error e
        | .ok (status_counter, warnings) =>
          .ok (pepHeader ::
            (status_counter.map (fun p => [Cell.str p.1, Cell.nat p.2]) ++
              [[Cell.str "Total",
                Cell.nat (List.sum (status_counter.map (fun p => p.2)))]]),
            warnings)

/-!
Fixture pages and sessions used to evaluate the extractors at concrete
inputs.
-/

/-- Fixture whats-new index page with two toctree version entries. -/
def wnIndexSoup : Node :=
  .elem "html" [] "" [
    .elem "section" [("id", "what-s-new-in-python")] "" [
      .elem "div" [("class", "toctree-wrapper")] "" [
        .elem "li" [("class", "toctree-l1")] ""
          [.elem "a" [("href", "3.12.html")] "Python 3.12" []],
        .elem "li" [("class", "toctree-l1")] ""
          [.elem "a" [("href", "3.11.html")] "Python 3.11" []]]]]

/-- Fixture whats-new sub-page with a heading and a definition list. -/
def wnSubSoup : Node :=
  .elem "html" [] "" [
    .elem "h1" [] "Python 3.12" [],
    .elem "dl" [] "Editor: Somebody" []]

/-- Session for the whats-new fixture: every fetch succeeds; the index url
serves the index page and any other url serves the sub-page. -/
def sessionC1 : Session := fun url =>
  if url == urljoin MAIN_DOC_URL "whatsnew/" then .ok ⟨"", wnIndexSoup, ""⟩
  else .ok ⟨"", wnSubSoup, ""⟩

/-- One data row of the fixture PEP index table. -/
def pepRow (href abbr : String) : Node :=
  .elem "tr" [] "" [
    .elem "td" [] "" [.elem "abbr" [] abbr []],
    .elem "td" [] "" [.elem "a" [("href", href)] "1" []]]

/-- Fixture PEP index page: a header row and three PEP rows. -/
def pepIndexSoup : Node :=
  .elem "html" [] "" [
    .elem "section" [("id", "index-by-category")] "" [
      .elem "table" [] "" [
        .elem "tr" [] "" [.elem "th" [] "PEP" []],
        pepRow "pep-0001/" "PA",
        pepRow "pep-0002/" "PA",
        pepRow "pep-0003/" "P"]]]

/-- Fixture PEP card page carrying one Status definition pair. -/
def pepCard (status : String) : Node :=
  .elem "html" [] "" [
    .elem "dl" [] "" [
      .elem "dt" [] "Status:" [],
      .elem "dd" [] status []]]

/-- Session where every fetch fails with a requests ConnectionError. -/
def sessionAllFail : Session := fun url =>
  .error (.requestsConnectionError url)

/-- Session where only the PEP index page is reachable and every card
fetch fails. -/
def sessionPepIndexOnly : Session := fun url =>
  if url == PEP_LIST_URL then .ok ⟨"", pepIndexSoup, ""⟩
  else .error (.requestsConnectionError url)

/-- Session for the PEP fixture where every fetch succeeds: the index page
lists three PEPs whose cards confirm the statuses Active, Active and
Draft. -/
def sessionC5 : Session := fun url =>
  if url == PEP_LIST_URL then .ok ⟨"", pepIndexSoup, ""⟩
  else if url == urljoin PEP_LIST_URL "pep-0003/" then .ok ⟨"", pepCard "Draft", ""⟩
  else .ok ⟨"", pepCard "Active", ""⟩

/-- Fixture documentation root page none of whose unordered lists mentions
the All versions marker. -/
def rootSoupNoMarker : Node :=
  .elem "html" [] "" [
    .elem "ul" [] "" [.elem "a" [("href", "x.html")] "Docs by version" []],
    .elem "ul" [] "" [.elem "a" [("href", "y.html")] "Other resources" []]]

def sessionC8 : Session := fun _ => .ok ⟨"", rootSoupNoMarker, ""⟩

/-- Fixture documentation root page whose version list carries the All
versions marker and three anchors, two of version shape and one not. -/
def rootSoupVersions : Node :=
  .elem "html" [] "" [
    .elem "ul" [] "" [
      .elem "li" [] ""
        [.elem "a" [("href", "https://docs.python.org/3.12/")] "Python 3.12 (stable)" []],
      .elem "li" [] ""
        [.elem "a" [("href", "https://docs.python.org/3.13/")] "Python 3.13 (pre-release)" []],
      .elem "li" [] ""
        [.elem "a" [("href", "https://docs.python.org/3/")] "Documentation" []],
      .elem "li" [] ""
        [.elem "a" [("href", "https://www.python.org/doc/versions/")] "All versions" []]]]

def sessionC9 : Session := fun _ => .ok ⟨"", rootSoupVersions, ""⟩

/-- A raised exception, as opposed to a returned value. -/
def isPyErrorOf {α : Type} : Except PyError α → Prop
  | .error _ => True
  | .ok _ => False

/-- C1: on the whats-new fixture index with two version entries and every
fetch succeeding, whats_new does not return the three rows the claim
describes: it raises TypeError at the one-argument cook_soup call made
right after the first fetch, before any entry is scanned. -/
theorem whats_new_fixture_raises :
    whats_new sessionC1 = .error (.typeError cookSoupArityMsg) := rfl

/-- C2: when every fetch fails, pep aborts with the ConnectionError
re-raised by get_response for the top-level index page; but when the index
page is reachable and only the card fetches would fail, pep still aborts —
with TypeError at the one-argument cook_soup call — before any table row
or card is processed, so sibling PEPs are never scanned. -/
theorem pep_fetch_failure_behavior :
    pep sessionAllFail =
      .error (.connectionError ("Ошибка соединения при запросе " ++ PEP_LIST_URL)) ∧
    pep sessionPepIndexOnly = .error (.typeError cookSoupArityMsg) :=
  ⟨rfl, rfl⟩

/-- C3: for every session, each of the four extractors raises before
producing any result row: either the top-level get_response raises
ConnectionError, or the one-argument cook_soup call raises TypeError; no
invocation mode can complete successfully. -/
theorem extractors_always_raise (session : Session) :
    isPyErrorOf (whats_new session) ∧ isPyErrorOf (latest_versions session) ∧
      isPyErrorOf (download session) ∧ isPyErrorOf (pep session) := by
  refine ⟨?_, ?_, ?_, ?_⟩
  · cases h : session (urljoin MAIN_DOC_URL "whatsnew/") <;>
      simp [whats_new, get_response, h, cook_soup_one_arg, isPyErrorOf]
  · cases h : session MAIN_DOC_URL <;>
      simp [latest_versions, get_response, h, cook_soup_one_arg, isPyErrorOf]
  · cases h : session (urljoin MAIN_DOC_URL "download.html") <;>
      simp [download, get_response, h, cook_soup_one_arg, isPyErrorOf]
  · cases h : session PEP_LIST_URL <;>
      simp [pep, get_response, h, cook_soup_one_arg, isPyErrorOf]

/-- Witness for C3 at a concrete session on which every fetch fails. -/
theorem extractors_always_raise_witness :
    isPyErrorOf (whats_new sessionAllFail) ∧
      isPyErrorOf (latest_versions sessionAllFail) ∧
      isPyErrorOf (download sessionAllFail) ∧ isPyErrorOf (pep sessionAllFail) :=
  extractors_always_raise sessionAllFail

/-- C5: on the PEP fixture with three PEPs whose confirmed statuses would
be Active, Active and Draft, pep does not return the header, per-status and
Total rows the claim describes: it raises TypeError at the one-argument
cook_soup call right after the index fetch. -/
theorem pep_fixture_raises :
    pep sessionC5 = .error (.typeError cookSoupArityMsg) := rfl

/-- C8: on a root page none of whose unordered lists contains the All
versions marker, latest_versions raises TypeError at the one-argument
cook_soup call before the list scan, and in particular never raises the
VersionsNotFoundException the claim describes. -/
theorem latest_versions_no_marker_raises :
    latest_versions sessionC8 = .error (.typeError cookSoupArityMsg) ∧
      ∀ m, latest_versions sessionC8 ≠ .error (.versionsNotFound m) := by
  have h : latest_versions sessionC8 = .error (.typeError cookSoupArityMsg) := rfl
  refine ⟨h, fun m hm => ?_⟩
  rw [h] at hm
  exact PyError.noConfusion (Except.error.inj hm)

/-- C9: on a root page whose version list carries the anchors Python 3.12
stable, Python 3.13 pre-release and Documentation, latest_versions does not
produce the two data rows the claim describes: it raises TypeError at the
one-argument cook_soup call before any anchor is examined. -/
theorem latest_versions_fixture_raises :
    latest_versions sessionC9 = .error (.typeError cookSoupArityMsg) := rfl

/-- find? is the head of the filtered list. -/
theorem list_find?_eq_head_filter {α : Type} (p : α → Bool) (l : List α) :
    l.find? p = (l.filter p).head? := by
  induction l with
  | nil => rfl
  | cons a l ih =>
    cases h : p a with
    | true =>
      rw [List.find?_cons_of_pos _ h, List.filter_cons_of_pos h, List.head?_cons]
    | false =>
      rw [List.find?_cons_of_neg _ (by simp [h]),
        List.filter_cons_of_neg (by simp [h])]
      exact ih

/-- The short-circuit forest traversal of bsFind returns the find? of the
flattened document-order node list. -/
theorem findInForest_eq (tag : String) (attrs : List (String × AttrSel)) :
    ∀ ns : List Node,
      findInForest tag attrs ns = (preorderForest ns).find? (nodeMatches tag attrs) := by
  refine forestInd _ ?_ ?_
  · simp [findInForest, preorderForest]
  · intro nm a s cs rest ih1 ih2
    cases h : nodeMatches tag attrs (Node.elem nm a s cs) with
    | true => simp [findInForest, preorderForest, h, List.find?]
    | false =>
      simp only [findInForest, preorderForest, h, Bool.false_eq_true, if_false]
      rw [List.find?_cons_of_neg _ (by simp [h]), List.find?_append, ih1, ih2]
      cases (preorderForest cs).find? (nodeMatches tag attrs) <;> simp [Option.or]

/-- C7: find_tag returns the first node matching the tag-and-filter query
in document order over the descendants of the searched element, and when no
descendant matches it raises the typed ParserFindTagException carrying the
searched tag name and attribute filter, never a None value. -/
theorem find_tag_first_match_or_typed_error (soup : Node) (tag : String)
    (attrs : List (String × AttrSel)) :
    find_tag soup tag attrs =
      match (descendants soup).filter (nodeMatches tag attrs) with
      | m :: _ => .ok m
      | [] => .error (.findTag tag attrs) := by
  have h : bsFind soup tag attrs =
      ((descendants soup).filter (nodeMatches tag attrs)).head? := by
    unfold bsFind descendants
    rw [findInForest_eq, list_find?_eq_head_filter]
  unfold find_tag
  rw [h]
  cases (descendants soup).filter (nodeMatches tag attrs) <;> simp

/-- C6: when the observed status is a member of the expected collection,
check_status_matches returns it unchanged and logs nothing; otherwise it
returns the Python False and logs exactly one warning whose text contains
the source url. -/
theorem check_status_matches_spec (data_page : String) (data_table : StatusValue)
    (url : String) :
    (pyInStatus data_page data_table = true →
      check_status_matches data_page data_table url = (.status data_page, [])) ∧
    (pyInStatus data_page data_table = false →
      check_status_matches data_page data_table url =
        (.retFalse, [warningMessage data_page data_table url]) ∧
      (check_status_matches data_page data_table url).2.length = 1 ∧
      ∀ w ∈ (check_status_matches data_page data_table url).2,
        List.IsInfix url.data w.data) := by
  constructor
  · intro h; simp [check_status_matches, h]
  · intro h
    have hc : check_status_matches data_page data_table url =
        (.retFalse, [warningMessage data_page data_table url]) := by
      simp [check_status_matches, h]
    refine ⟨hc, by rw [hc]; rfl, ?_⟩
    rw [hc]
    intro w hw
    simp only [List.mem_singleton] at hw
    subst hw
    refine ⟨"Несовпадающие статусы:\nURL: ".data,
      ("\nСтатус в карточке: " ++ data_page ++ "\nОжидаемые статусы: " ++
        statusValueRepr data_table ++ "\n").data, ?_⟩
    simp [warningMessage]

/-- Witness for C6 at concrete inputs: a member is returned unchanged, a
non-member yields False plus the single warning. -/
theorem check_status_matches_spec_witness :
    check_status_matches "Active" (.strs ["Active", "Accepted"])
        "https://peps.python.org/pep-0020/" = (.status "Active", []) ∧
    check_status_matches "Superseded" (.strs ["Active", "Accepted"])
        "https://peps.python.org/pep-0020/" =
      (.retFalse, [warningMessage "Superseded" (.strs ["Active", "Accepted"])
        "https://peps.python.org/pep-0020/"]) :=
  ⟨(check_status_matches_spec "Active" (.strs ["Active", "Accepted"])
      "https://peps.python.org/pep-0020/").1 rfl,
   ((check_status_matches_spec "Superseded" (.strs ["Active", "Accepted"])
      "https://peps.python.org/pep-0020/").2 rfl).1⟩

/-- A status code that is no key of EXPECTED_STATUS makes the lookup
fall back to the plain Unknown string. -/
theorem statusValueOfNoneKey (abbrText : String)
    (h : (EXPECTED_STATUS.find?
      (fun p => p.1 == status_symbol_of abbrText)).isNone = true) :
    status_value_of abbrText = .str UNKNOWN_VALUE := by
  unfold status_value_of expectedStatusGet
  cases hf : EXPECTED_STATUS.find? (fun p => p.1 == status_symbol_of abbrText) with
  | none => rfl
  | some p => rw [hf] at h; simp at h

/-- C4: the status code is the second character of the abbreviation text,
the empty string when the text is shorter than two characters; the code is
looked up in EXPECTED_STATUS with the Unknown sentinel as non-raising
fallback for an unrecognized code; and the empty code maps to the
Draft-and-Active pair. -/
theorem pep_status_symbol_lookup (abbrText : String) :
    (abbrText.length ≤ 1 →
      status_symbol_of abbrText = "" ∧
      status_value_of abbrText = .strs ["Draft", "Active"]) ∧
    (1 < abbrText.length →
      status_symbol_of abbrText = String.singleton (abbrText.data.getD 1 ' ')) ∧
    ((EXPECTED_STATUS.find?
        (fun p => p.1 == status_symbol_of abbrText)).isNone = true →
      status_value_of abbrText = .str UNKNOWN_VALUE) ∧
    (∀ p, EXPECTED_STATUS.find? (fun q => q.1 == status_symbol_of abbrText) = some p →
      status_value_of abbrText = .strs p.2) := by
  refine ⟨?_, ?_, statusValueOfNoneKey abbrText, ?_⟩
  · intro h
    have hs : status_symbol_of abbrText = "" := by
      simp [status_symbol_of, Nat.not_lt.mpr h]
    refine ⟨hs, ?_⟩
    unfold status_value_of
    rw [hs]
    rfl
  · intro h
    simp [status_symbol_of, h]
  · intro p hp
    unfold status_value_of expectedStatusGet
    rw [hp]

/-- Witness for C4 at concrete inputs: a one-character abbreviation gets
the empty code and the Draft-and-Active pair, an unrecognized second
character gets the Unknown sentinel, and a recognized one gets its tuple. -/
theorem pep_status_symbol_lookup_witness :
    status_value_of "X" = .strs ["Draft", "Active"] ∧
    status_value_of "XZ" = .str UNKNOWN_VALUE ∧
    status_value_of "IA" = .strs ["Active", "Accepted"] :=
  ⟨((pep_status_symbol_lookup "X").1 (by decide)).2,
   (pep_status_symbol_lookup "XZ").2.2.1 rfl,
   (pep_status_symbol_lookup "IA").2.2.2 ("A", ["Active", "Accepted"]) rfl⟩

/-- C10 counterexample: the empty observed status string is a Python
substring of the Unknown fallback and check_status_matches returns it as
the confirmed status, yet the tally step does not count it, because the
empty string is falsy in the truthiness test guarding the counter
update — so not every substring of Unknown is counted. -/
theorem unknown_substring_empty_not_counted :
    pyStrIn "" UNKNOWN_VALUE = true ∧
    check_status_matches "" (.str UNKNOWN_VALUE)
        "https://peps.python.org/pep-9999/" = (.status "", []) ∧
    (tally_step "" (.str UNKNOWN_VALUE)
        "https://peps.python.org/pep-9999/" []).1 = [] :=
  ⟨rfl, rfl, rfl⟩

/-- C10 amended: for an abbreviation whose status code is no key of
EXPECTED_STATUS the fallback passed to check_status_matches is the plain
string Unknown, so the membership test is substring containment, and every
NON-EMPTY observed status string that is a substring of Unknown is returned
as the confirmed status, with no warning, and counted under that substring
by the tally step. -/
theorem unknown_substring_counted (abbrText observed url : String)
    (counter : List (String × Nat))
    (hkey : (EXPECTED_STATUS.find?
      (fun p => p.1 == status_symbol_of abbrText)).isNone = true)
    (hne : (observed == "") = false)
    (hsub : pyStrIn observed UNKNOWN_VALUE = true) :
    status_value_of abbrText = .str UNKNOWN_VALUE ∧
    check_status_matches observed (status_value_of abbrText) url =
      (.status observed, []) ∧
    (tally_step observed (status_value_of abbrText) url counter).1 =
      counterAdd counter observed := by
  have hval := statusValueOfNoneKey abbrText hkey
  have hchk : check_status_matches observed (status_value_of abbrText) url =
      (.status observed, []) := by
    rw [hval]
    simp [check_status_matches, pyInStatus, hsub]
  refine ⟨hval, hchk, ?_⟩
  simp [tally_step, hchk, hne]

/-- Witness for C10 amended: the observed string now is a substring of
Unknown and, for the unrecognized abbreviation code of XZ, is counted
under the key now. -/
theorem unknown_substring_counted_witness :
    (tally_step "now" (status_value_of "XZ")
        "https://peps.python.org/pep-9998/" []).1 = [("now", 1)] := by
  have h := unknown_substring_counted "XZ" "now"
    "https://peps.python.org/pep-9998/" [] rfl rfl rfl
  rw [h.2.2]
  rfl
